import Mathlib

/-!
Verification development for the cpparse command-line parsing library.

The definitions below are a shallow embedding of the parsing core of
cpparse (cpparse.cxx / cpparse.hxx): the ArgReader token state machine,
the option variants (Flag, AggFlag, SingleOption), the registration
algorithm (parse_names / register_option), the Parser::parse dispatch
loop, and the default string converters read<T>.  C++ strings are
List Char (with an explicit Nat cursor standing for the
std::string::iterator `location`), the raw argument vector is a
List String, the heterogeneous option values live in a small closed
universe Val, and process-exiting error paths become Except values.
Pointer sharing between the owning option list and the name maps is
modelled arena-style: the maps store indices into the owning list.
-/

namespace Cpparse

/-- Closed universe of option value types used by the claims
(bool, int, string); stands for the template parameter T of the
C++ option classes. -/
inductive Val where
  | b (x : Bool)
  | i (x : Int)
  | s (x : String)
deriving DecidableEq

/-- Errors raised at declaration time (std::invalid_argument thrown by
parse_names and register_option, cpparse.cxx lines 450-496). -/
inductive RegErr where
  | noNames
  | invalidName (name : String)
  | dupShort (c : Char)
  | dupLong (name : String)
deriving DecidableEq

/-- Parse-time fatal errors.  In the C++ source each of these prints a
diagnostic to std::cerr followed by the usage text and calls exit(1);
the embedding returns them as values.  internalError models the
std::logic_error at cpparse.cxx line 390 and has no other source
counterpart; it is never produced on inputs reachable from the API. -/
inductive ParseError where
  | unknownShort (c : Char)
  | unknownLong (flag : String)
  | unexpectedArgument (arg : String)
  | conversionError (lastFlag : String) (arg : String)
  | missingArgument (lastFlag : String)
  | internalError
deriving DecidableEq

/-- First line of the std::cerr message emitted for each error, exactly
as the source streams it (cpparse.cxx lines 284-295, 357, 368, 378).
Note that for unknownLong the source streams flag[0] (cpparse.cxx line
368), so only the first character of the long name appears; typeid
names are platform-defined and modelled by the placeholder <type>. -/
def diagnostic : ParseError → String
  | .unknownShort c => "Short option \"" ++ String.singleton c ++ "\" is not a valid option"
  | .unknownLong flag =>
      "Long option \"" ++ String.singleton ((flag.toList).headD ' ') ++ "\" is not a valid option"
  | .unexpectedArgument arg =>
      "Argument \"" ++ arg ++ "\" specified, but program demands no more arguments"
  | .conversionError lf arg =>
      "Parse error trying to interpret argument of \"" ++ lf ++ "\" \"" ++ arg ++
        "\" as an \"<type>\""
  | .missingArgument lf => "\"" ++ lf ++ "\" requires an argument, but none was specified"
  | .internalError => "Should never reach here"

/-- Token kinds returned by ArgReader::next_flag (enum class ot,
cpparse.cxx line 185); ot::end is spelled done. -/
inductive Ot where
  | done
  | argument
  | short_opt
  | long_opt
  | marker
deriving DecidableEq

/-- State of the ArgReader (cpparse.cxx lines 188-305).  args is the
remaining slice itr..end of the raw argument vector; current is the
working token; pos is the iterator `location` as an index into current
(initially current is empty and location = current.begin(), i.e.
pos = 0); processOptions is the flag cleared permanently by the "--"
marker; lastFlag is the last option token as written, used in error
messages. -/
structure Reader where
  args : List String
  current : List Char
  pos : Nat
  processOptions : Bool
  lastFlag : String
deriving DecidableEq

/-- ArgReader::next_flag (cpparse.cxx lines 202-252), the token
classifier.  Returns the token kind, the buffer contents, and the
updated reader.  In the C++ the buffer is an in-out parameter left
untouched on the done and marker paths; the parse loop never reads it
there, so those paths return the empty string. -/
def next_flag (r : Reader) : Ot × String × Reader :=
  if r.pos ≠ 0 ∧ r.pos ≠ r.current.length then
    -- parse another short argument out of the current cluster
    let c := r.current.getD r.pos ' '
    (Ot.short_opt, String.singleton c,
      { r with pos := r.pos + 1, lastFlag := "-" ++ String.singleton c })
  else if r.pos = r.current.length ∧ r.args = [] then
    -- nothing else to parse
    (Ot.done, "", r)
  else
    -- grab the next raw argument if the current token is spent
    let r1 := if r.pos = r.current.length then
        { r with current := (r.args.headD ("")).toList, pos := 0, args := r.args.tail }
      else r
    if r1.processOptions = true ∧ r1.current.length = 2 ∧
        r1.current.getD 0 ' ' = '-' ∧ r1.current.getD 1 ' ' = '-' then
      -- end-of-options marker: disable option processing permanently
      (Ot.marker, "", { r1 with processOptions := false, pos := r1.current.length })
    else if r1.processOptions = true ∧ 2 ≤ r1.current.length ∧
        r1.current.getD 0 ' ' = '-' ∧ r1.current.getD 1 ' ' ≠ '-' then
      -- short option: emit current[1], leave pos = 2 for clustering
      let c := r1.current.getD 1 ' '
      (Ot.short_opt, String.singleton c,
        { r1 with pos := 2, lastFlag := "-" ++ String.singleton c })
    else if r1.processOptions = true ∧ 2 < r1.current.length ∧
        r1.current.getD 0 ' ' = '-' ∧ r1.current.getD 1 ' ' = '-' then
      -- long option: payload is everything after the two dashes
      (Ot.long_opt, String.mk (r1.current.drop 2),
        { r1 with pos := r1.current.length,
                  lastFlag := "--" ++ String.mk (r1.current.drop 2) })
    else
      -- positional argument: keep pos at the token start for next_argument
      (Ot.argument, String.mk r1.current, { r1 with lastFlag := "" })

/-- ArgReader::next_argument (cpparse.cxx lines 256-280), the
free-standing value fetch used by options that take a value.  Returns
some buffer on success, none on failure (C++ returns bool with an
in-out buffer).  On the option-shaped failure path the freshly fetched
token stays in current with pos 0, exactly as in the source. -/
def next_argument (r : Reader) : Option String × Reader :=
  if r.pos ≠ 0 ∧ r.pos ≠ r.current.length then
    -- mid-token: greedily take the rest of the current token
    (some (String.mk (r.current.drop r.pos)), { r with pos := r.current.length })
  else if r.pos = r.current.length ∧ r.args = [] then
    (none, r)
  else
    let r1 := if r.pos = r.current.length then
        { r with current := (r.args.headD ("")).toList, pos := 0, args := r.args.tail }
      else r
    if r1.processOptions = true ∧ 1 ≤ r1.current.length ∧ r1.current.getD 0 ' ' = '-' then
      -- got an option, failed
      (none, r1)
    else
      (some (String.mk r1.current), { r1 with pos := r1.current.length })

/-- Behaviour of one option object: Flag<T> stores a constant,
AggFlag<T> folds the constant into the value with an aggregator,
SingleOption<T> converts one fetched token (cpparse.hxx lines 74-132). -/
inductive OptKind where
  | flag (constVal : Val)
  | aggFlag (aggregator : Val → Val → Val) (constVal : Val)
  | singleOption (converter : String → Except Unit Val)

/-- One option object: its behaviour and its mutable value slot. -/
structure OptObj where
  kind : OptKind
  value : Val

/-- Option::parse virtual dispatch (Flag<T>::parse cpparse.cxx lines
548-552, AggFlag<T>::parse lines 631-635, SingleOption<T>::parse lines
714-726).  Flags ignore the reader; a single-value option fetches one
argument, maps converter failure to a ConversionError naming the last
flag and the offending token, and a failed fetch to a
MissingArgumentError naming the last flag. -/
def applyOption (o : OptObj) (r : Reader) : Except ParseError (OptObj × Reader) :=
  match o.kind with
  | OptKind.flag c => Except.ok ({ o with value := c }, r)
  | OptKind.aggFlag f c => Except.ok ({ o with value := f o.value c }, r)
  | OptKind.singleOption conv =>
    match next_argument r with
    | (some buffer, r1) =>
      match conv buffer with
      | Except.ok v => Except.ok ({ o with value := v }, r1)
      | Except.error _ => Except.error (ParseError.conversionError r1.lastFlag buffer)
    | (none, r1) => Except.error (ParseError.missingArgument r1.lastFlag)

/-- Lookup in a name map.  std::map<K, Option*> is modelled as an
association list from keys to indices into the owning option list; the
map and the list thereby reference the same object, as the raw
pointers do in the source. -/
def lookupKey {α : Type} [BEq α] (m : List (α × Nat)) (k : α) : Option Nat :=
  (m.find? (fun q => q.1 == k)).map (fun q => q.2)

/-- One checked insertion loop of register_option (cpparse.cxx lines
476-485 for short names, 486-495 for long names): names are checked
one at a time against the map and inserted as they go; the first
duplicate stops the loop with an error, leaving the insertions made so
far in place (the C++ throw unwinds past the loop). -/
def insertKeys {α : Type} [BEq α] (mkErr : α → RegErr) (idx : Nat) :
    List α → List (α × Nat) → List (α × Nat) × Option RegErr
  | [], m => (m, none)
  | k :: ks, m =>
    if (lookupKey m k).isSome then (m, some (mkErr k))
    else insertKeys mkErr idx ks (m ++ [(k, idx)])

/-- The Parser object (cpparse.hxx lines 29-62): the owning option
list, the two name maps (indices into the list), and the owned ordered
positional list.  Formatting state (program name, description) is
display-only and omitted. -/
structure Parser where
  options : List OptObj
  long_options : List (String × Nat)
  short_options : List (Char × Nat)
  arguments : List OptObj

/-- Parser with nothing declared. -/
def emptyParser : Parser := ⟨[], [], [], []⟩

/-- register_option (cpparse.cxx lines 470-496).  Note the order of
operations in the source: the option is emplaced into the owning list
before any name is checked, then the short names are checked and
inserted one by one, then the long names.  A duplicate name surfaces
as an error, but the mutations already performed (the emplaced option,
the earlier insertions) remain, exactly as after the C++ throw. -/
def registerOpt (p : Parser) (o : OptObj) (ss : List Char) (ls : List String) :
    Parser × Option RegErr :=
  let idx := p.options.length
  let p1 := { p with options := p.options ++ [o] }
  let (sm, e1) := insertKeys RegErr.dupShort idx ss p1.short_options
  let p2 := { p1 with short_options := sm }
  match e1 with
  | some e => (p2, some e)
  | none =>
    let (lm, e2) := insertKeys RegErr.dupLong idx ls p2.long_options
    ({ p2 with long_options := lm }, e2)

/-- is_short_option (cpparse.cxx lines 438-440): exactly a dash
followed by one alphanumeric character. -/
def is_short_option (name : String) : Bool :=
  match name.toList with
  | ['-', c] => c.isAlphanum
  | _ => false

/-- is_long_option (cpparse.cxx lines 442-448): two dashes, an
alphanumeric character, then alphanumerics or dashes. -/
def is_long_option (name : String) : Bool :=
  match name.toList with
  | '-' :: '-' :: c :: rest => c.isAlphanum && rest.all (fun d => d.isAlphanum || d == '-')
  | _ => false

/-- Per-name loop of parse_names (cpparse.cxx lines 456-467): split
each declared name into the short or long bucket, stopping with
InvalidNameError at the first malformed name. -/
def parseNamesGo : List String → List Char × List String × Option RegErr
  | [] => ([], [], none)
  | n :: rest =>
    if is_short_option n then
      let (ss, ls, e) := parseNamesGo rest
      ((n.toList).getD 1 ' ' :: ss, ls, e)
    else if is_long_option n then
      let (ss, ls, e) := parseNamesGo rest
      (ss, String.mk ((n.toList).drop 2) :: ls, e)
    else ([], [], some (RegErr.invalidName n))

/-- parse_names (cpparse.cxx lines 450-468), including the
at-least-one-name check at lines 453-455. -/
def parse_names (names : List String) : List Char × List String × Option RegErr :=
  if names = [] then ([], [], some RegErr.noNames)
  else parseNamesGo names

/-- Parser::add_flag (cpparse.cxx lines 502-514): validate the names,
build a Flag with the given constant and default, register it.  On a
parse_names error nothing is registered (the C++ throw happens before
the Flag is constructed); on a register_option error the partial
mutations remain. -/
def Parser.add_flag (p : Parser) (names : List String) (constVal dflt : Val) :
    Parser × Option RegErr :=
  match parse_names names with
  | (_, _, some e) => (p, some e)
  | (ss, ls, none) => registerOpt p ⟨OptKind.flag constVal, dflt⟩ ss ls

/-- Parser::add_agg_flag (cpparse.cxx lines 584-596): like add_flag
but the value is folded through the aggregator on every occurrence. -/
def Parser.add_agg_flag (p : Parser) (names : List String)
    (constVal dflt : Val) (aggregator : Val → Val → Val) : Parser × Option RegErr :=
  match parse_names names with
  | (_, _, some e) => (p, some e)
  | (ss, ls, none) => registerOpt p ⟨OptKind.aggFlag aggregator constVal, dflt⟩ ss ls

/-- Parser::add_option (cpparse.cxx lines 667-681): a single-value
option with a default and a converter. -/
def Parser.add_option (p : Parser) (names : List String) (dflt : Val)
    (conv : String → Except Unit Val) : Parser × Option RegErr :=
  match parse_names names with
  | (_, _, some e) => (p, some e)
  | (ss, ls, none) => registerOpt p ⟨OptKind.singleOption conv, dflt⟩ ss ls

/-- Modelled from the spec: the declaration of a positional argument
(Parser::add_argument) is not part of the live code (it survives only
as the commented-out Argument<T> block, cpparse.cxx lines 773-838);
spec sections 4.2 and 4.4 state that a positional has the identical
value-consumption contract to SingleValueOption and is appended to the
parser's ordered positional sequence.  The display name exists only
for help rendering, which is out of scope, so it is accepted and
dropped. -/
def Parser.add_argument (p : Parser) (_nm : String)
    (conv : String → Except Unit Val) (dflt : Val) : Parser :=
  { p with arguments := p.arguments ++ [⟨OptKind.singleOption conv, dflt⟩] }

/-- Trailing positional loop of Parser::parse (cpparse.cxx lines
394-396): after the token stream is exhausted every still-unmatched
positional is parsed against the exhausted reader, so the first one
reports its missing-argument error. -/
def trailingLoop (arena : List OptObj) (posDone : List OptObj) :
    List OptObj → Reader → Except ParseError (List OptObj × List OptObj)
  | [], _ => Except.ok (arena, posDone.reverse)
  | o :: rest, r =>
    match applyOption o r with
    | Except.error e => Except.error e
    | Except.ok (o1, r1) => trailingLoop arena (o1 :: posDone) rest r1

/-- Main loop of Parser::parse (cpparse.cxx lines 352-393): classify
the next token and dispatch it.  arena is the mutable copy of the
owning option list (the name maps index into it); posDone/posTodo are
the two halves of the positional sequence around the args iterator.
The fuel argument only bounds the recursion; parse always supplies
enough for the loop to reach ot::end (each iteration either consumes a
raw argument or advances the cursor inside one). -/
def parseLoop (p : Parser) :
    Nat → List OptObj → List OptObj → List OptObj → Reader →
    Except ParseError (List OptObj × List OptObj)
  | 0, _, _, _, _ => Except.error ParseError.internalError
  | fuel + 1, arena, posDone, posTodo, r =>
    let (ty, flag, r1) := next_flag r
    match ty with
    | Ot.done => trailingLoop arena posDone posTodo r1
    | Ot.short_opt =>
      match lookupKey p.short_options ((flag.toList).headD ' ') with
      | none => Except.error (ParseError.unknownShort ((flag.toList).headD ' '))
      | some idx =>
        match arena.get? idx with
        | none => Except.error ParseError.internalError
        | some o =>
          match applyOption o r1 with
          | Except.error e => Except.error e
          | Except.ok (o1, r2) => parseLoop p fuel (arena.set idx o1) posDone posTodo r2
    | Ot.long_opt =>
      match lookupKey p.long_options flag with
      | none => Except.error (ParseError.unknownLong flag)
      | some idx =>
        match arena.get? idx with
        | none => Except.error ParseError.internalError
        | some o =>
          match applyOption o r1 with
          | Except.error e => Except.error e
          | Except.ok (o1, r2) => parseLoop p fuel (arena.set idx o1) posDone posTodo r2
    | Ot.argument =>
      match posTodo with
      | [] => Except.error (ParseError.unexpectedArgument flag)
      | o :: rest =>
        match applyOption o r1 with
        | Except.error e => Except.error e
        | Except.ok (o1, r2) => parseLoop p fuel arena (o1 :: posDone) rest r2
    | Ot.marker => parseLoop p fuel arena posDone posTodo r1

/-- Fuel bound for the parse loop: generous count of classifier steps
(at most one per character plus two per raw argument, plus slack). -/
def fuelFor (argv : List String) : Nat :=
  argv.foldl (fun a t => a + t.length + 2) 4

/-- Parser::parse (cpparse.cxx lines 343-397).  argv element 0 is the
program name (display only); the ArgReader starts at argv + 1 with an
empty current token, location at its begin, and option processing
enabled. -/
def Parser.runParse (p : Parser) (argv : List String) :
    Except ParseError (List OptObj × List OptObj) :=
  parseLoop p (fuelFor argv) p.options [] p.arguments ⟨argv.tail, [], 0, true, ""⟩

/-- Observable result of a parse: the value slots of the named options
(in declaration order) and of the positionals (in order). -/
def optValues (res : Except ParseError (List OptObj × List OptObj)) :
    Except ParseError (List Val × List Val) :=
  res.map (fun out => (out.1.map OptObj.value, out.2.map OptObj.value))

/-- Whitespace characters skipped by formatted istream extraction with
the default skipws flag (the C locale isspace set). -/
def isSpaceChar (c : Char) : Bool :=
  c == ' ' || c == '\t' || c == '\n' || c == '\x0b' || c == '\x0c' || c == '\r'

/-- Numeric value of an ASCII decimal digit character. -/
def charToDigit (c : Char) : Nat := c.toNat - 48

/-- Maximal run of decimal digits consumed by num_get during integer
extraction, accumulating the value most-significant-first; returns the
value and the unconsumed remainder. -/
def parseDigits : Nat → List Char → Nat × List Char
  | acc, [] => (acc, [])
  | acc, c :: cs =>
    if c.isDigit then parseDigits (acc * 10 + charToDigit c) cs else (acc, c :: cs)

/-- Digits-and-sign stage of read<int> (cpparse.cxx lines 844-854):
after the optional sign, num_get requires at least one digit and stops
at the first non-digit.  The surrounding check at line 849 accepts the
result only when the stream is at eof or positioned at the end of the
input, i.e. when the digits reach the end of the token; otherwise the
function throws std::invalid_argument (a ConversionError).  When the
stream runs out before any digit (empty token, ws-only token, or a
lone sign), eofbit is set alongside failbit and the line 849 eof()
check accepts the value-initialised result 0 — modelled faithfully by
the ok 0 arm. -/
def readIntAfterSign (neg : Bool) (cs : List Char) : Except Unit Int :=
  match cs with
  | [] => Except.ok 0
  | c :: _ =>
    if c.isDigit then
      let (n, rest) := parseDigits 0 cs
      if rest.isEmpty then Except.ok (if neg then -(n : Int) else (n : Int))
      else Except.error ()
    else Except.error ()

/-- read<int> (cpparse.cxx lines 844-854), the default integer
converter: istringstream extraction skips leading whitespace, accepts
one optional sign and a digit run, and the whole token must have been
consumed.  C++ int overflow is out of scope: the machine integer is
modelled as unbounded Int. -/
def readInt (input : String) : Except Unit Int :=
  match (input.toList).dropWhile isSpaceChar with
  | [] => Except.ok 0
  | c :: rest =>
    if c = '-' then readIntAfterSign true rest
    else if c = '+' then readIntAfterSign false rest
    else readIntAfterSign false (c :: rest)

/-- Proper prefixes of the boolalpha names true and false.  When bool
extraction runs out of input while the consumed characters still form
a strict prefix of a name (including consuming nothing), num_get sets
failbit together with eofbit and stores false; the eof() check of
read<bool> then accepts that false. -/
def boolStubs : List (List Char) :=
  [[], ['t'], ['t', 'r'], ['t', 'r', 'u'], ['f'], ['f', 'a'], ['f', 'a', 'l'],
    ['f', 'a', 'l', 's']]

/-- read<bool> (cpparse.cxx lines 844-854): the extraction runs with
std::boolalpha set (line 848), so num_get matches the token against
the exact names true and false, case-sensitively, and never against
the numeric spellings.  A complete match is accepted only when it
reaches the end of the token (the line 849 eof/tellg check); a token
that stops being a prefix of either name mid-way fails without eofbit
and becomes a ConversionError; a token that runs out while still a
strict prefix hits the eofbit quirk described at boolStubs. -/
def readBool (input : String) : Except Unit Bool :=
  match (input.toList).dropWhile isSpaceChar with
  | 't' :: 'r' :: 'u' :: 'e' :: rest => if rest = [] then Except.ok true else Except.error ()
  | 'f' :: 'a' :: 'l' :: 's' :: 'e' :: rest =>
      if rest = [] then Except.ok false else Except.error ()
  | cs => if cs ∈ boolStubs then Except.ok false else Except.error ()

/-- read<std::string> (cpparse.cxx lines 858-861): the identity. -/
def readString (input : String) : Except Unit String := Except.ok input

/-- Default int converter wrapped into the value universe. -/
def convInt (t : String) : Except Unit Val := (readInt t).map Val.i

/-- Default string converter wrapped into the value universe. -/
def convString (t : String) : Except Unit Val := (readString t).map Val.s

/-- Decimal digit characters of n, most significant first (the digits
list of Mathlib is least-significant-first, hence the reverse). -/
def digitsChars (n : Nat) : List Char := ((Nat.digits 10 n).reverse).map Nat.digitChar

/-- Decimal rendering of a natural number, as std::to_string writes
it: zero is the single character 0, otherwise the digits with no sign
and no padding. -/
def renderNat (n : Nat) : List Char := if n = 0 then ['0'] else digitsChars n

/-- Decimal rendering of an integer, as std::to_string writes it: a
leading minus sign for negative values, then the digits. -/
def renderInt : Int → String
  | Int.ofNat n => String.mk (renderNat n)
  | Int.negSucc n => String.mk ('-' :: renderNat (n + 1))

/-- Substring scaffolding: does the second list start with the first. -/
def startsWithList : List Char → List Char → Bool
  | [], _ => true
  | _ :: _, [] => false
  | d :: ds, c :: cs => c == d && startsWithList ds cs

/-- Substring scaffolding: does hay contain pat as a contiguous run. -/
def containsSub (pat : List Char) : List Char → Bool
  | [] => startsWithList pat []
  | c :: rest => startsWithList pat (c :: rest) || containsSub pat rest

/-- Parser of the C1 end-to-end scenario: bool flag -a,--all (default
false, constant true), int option -i,--integer (default 0), required
string positional name. -/
def c1Parser : Parser :=
  (((emptyParser.add_flag (["-a", "--all"]) (Val.b true) (Val.b false)).1.add_option
      (["-i", "--integer"]) (Val.i 0) convInt).1.add_argument ("name") convString
    (Val.s ("")))

/-- Parser of the C3 clustering scenario: flag a, string option b. -/
def c3Parser : Parser :=
  ((emptyParser.add_flag (["-a"]) (Val.b true) (Val.b false)).1.add_option (["-b"])
    (Val.s ("")) convString).1

/-- Parser of the C4 attached-value scenario: int option n. -/
def c4Parser : Parser := (emptyParser.add_option (["-n"]) (Val.i 0) convInt).1

/-- Parser of the C5 end-of-options scenario: flag f, positional p. -/
def c5Parser : Parser :=
  ((emptyParser.add_flag (["-f"]) (Val.b true) (Val.b false)).1).add_argument ("p")
    convString (Val.s (""))

/-- Parser of the C7 unknown-long-option scenario: one flag --all. -/
def c7Parser : Parser := (emptyParser.add_flag (["--all"]) (Val.b true) (Val.b false)).1

/-- Parser of the C10 empty-token scenario: one string positional p. -/
def c10Parser : Parser := emptyParser.add_argument ("p") convString (Val.s (""))

/-- First registration step of the C2 duplicate-name scenario. -/
def c2First : Parser × Option RegErr :=
  emptyParser.add_flag (["-a"]) (Val.b true) (Val.b false)

/-- Second registration step of the C2 scenario: the same short name
again. -/
def c2Second : Parser × Option RegErr :=
  (c2First.1).add_flag (["-a"]) (Val.b true) (Val.b false)

/-- Rebuilding a string from its character list is the identity. -/
theorem mk_toList (t : String) : String.mk t.toList = t := rfl

/-- The character list of a rebuilt string is the original list. -/
theorem toList_mk (l : List Char) : (String.mk l).toList = l := rfl

/-- C1: the end-to-end scenario.  With flag -a,--all (bool, default
false, constant true), option -i,--integer (int, default 0) and
required string positional name: input prog -a -i 42 widget gives
all = true, integer = 42, name = widget; input prog widget leaves the
defaults false and 0 with name = widget; input prog alone fails with
the MissingArgumentError raised by the trailing positional against the
exhausted reader (its message quotes last_flag, which is empty at that
point). -/
theorem claim1_end_to_end :
    optValues (c1Parser.runParse (["prog", "-a", "-i", "42", "widget"])) =
      Except.ok ([Val.b true, Val.i 42], [Val.s ("widget")]) ∧
    optValues (c1Parser.runParse (["prog", "widget"])) =
      Except.ok ([Val.b false, Val.i 0], [Val.s ("widget")]) ∧
    c1Parser.runParse (["prog"]) = Except.error (ParseError.missingArgument ("")) :=
  ⟨rfl, rfl, rfl⟩

/-- C3: short-option clustering.  With flag a and string option b, the
inputs prog -ab hello and prog -a -b hello produce identical final
values: a set to its constant true and b = hello. -/
theorem claim3_clustering :
    optValues (c3Parser.runParse (["prog", "-ab", "hello"])) =
      optValues (c3Parser.runParse (["prog", "-a", "-b", "hello"])) ∧
    optValues (c3Parser.runParse (["prog", "-ab", "hello"])) =
      Except.ok ([Val.b true, Val.s ("hello")], []) :=
  ⟨rfl, rfl⟩

/-- C7 evidence: with only --all declared, input prog --unknown fails
with the unknown-long-option error carrying the full payload, but the
diagnostic the source prints (cpparse.cxx line 368 streams flag[0])
shows only the first character u, so the full token unknown does not
occur in it. -/
theorem claim7_unknown_long_diag :
    c7Parser.runParse (["prog", "--unknown"]) =
      Except.error (ParseError.unknownLong ("unknown")) ∧
    diagnostic (ParseError.unknownLong ("unknown")) =
      "Long option \"u\" is not a valid option" ∧
    containsSub (("unknown").toList)
      ((diagnostic (ParseError.unknownLong ("unknown"))).toList) = false :=
  ⟨rfl, rfl, by decide⟩

/-- C10 counterexample: with one string positional p, on input
prog (empty string) -f the empty token is classified as a positional
token and dropped, and the fetch then fails with MissingArgumentError
because the following raw argument -f is option-shaped — even though
the empty string was not the last element, contradicting the claim
that the fetch would consume the following raw argument as the
positional's value (p never receives -f). -/
theorem claim10_counterexample :
    c10Parser.runParse (["prog", "", "-f"]) =
      Except.error (ParseError.missingArgument ("")) ∧
    (optValues (c10Parser.runParse (["prog", "", "-f"])) =
      Except.ok ([], [Val.s ("-f")])) = False :=
  ⟨rfl, eq_false (fun h => Except.noConfusion h)⟩

/-- C2 counterexample: registering flag -a and then flag -a again
raises DuplicateNameError, but the Registry is observably changed by
the failing declaration: the owning option list has grown from one
entry to two, because register_option emplaces the option before any
name check (cpparse.cxx line 475). -/
theorem claim2_counterexample :
    c2Second.2 = some (RegErr.dupShort 'a') ∧
    (c2Second.1).options.length = 2 ∧
    (c2First.1).options.length = 1 :=
  ⟨rfl, rfl, rfl⟩

/-- C9 counterexample: the default bool converter runs with boolalpha
set, so the numeric spelling 1 is rejected with a ConversionError
rather than accepted as true. -/
theorem claim9_counterexample : readBool ("1") = Except.error () := rfl

/-- C9 amended: the default bool converter maps the exact token true
to true and the exact token false to false, case-sensitively (the
capitalised spellings True and FALSE fail with ConversionError), and
the numeric spellings 1 and 0 are likewise rejected with
ConversionError, because the extraction at cpparse.cxx line 848 sets
std::boolalpha, which makes num_get match only the textual names.
Nothing more is claimed about other tokens: a strict prefix of a name,
such as t or the empty token, is accepted as false through the eofbit
quirk described at boolStubs, so the converter does not reject every
non-literal token. -/
theorem claim9_bool_literal_only :
    readBool ("true") = Except.ok true ∧
    readBool ("false") = Except.ok false ∧
    readBool ("True") = Except.error () ∧
    readBool ("FALSE") = Except.error () ∧
    readBool ("1") = Except.error () ∧
    readBool ("0") = Except.error () :=
  ⟨rfl, rfl, rfl, rfl, rfl, rfl⟩

/-- C4: attached short value.  With int option n, input prog -n5
yields the value 5; and from the reader state just after the short
option n was split out of the token -n5 (cursor at index 2), the value
fetch returns the remainder 5 of the same raw token, leaving the
remaining raw argument vector untouched whatever it holds — no
additional raw argument is consumed. -/
theorem claim4_attached_value :
    optValues (c4Parser.runParse (["prog", "-n5"])) = Except.ok ([Val.i 5], []) ∧
    (∀ (rest : List String) (lf : String),
      next_argument ⟨rest, ['-', 'n', '5'], 2, true, lf⟩ =
        (some ("5"), ⟨rest, ['-', 'n', '5'], 3, true, lf⟩)) := by
  refine ⟨rfl, fun rest lf => ?_⟩
  simp [next_argument]

/-- C5: permanence of the end-of-options marker.  Conjuncts: (1)
fetching the exact token consisting of two prefix characters with
option syntax honored emits the marker and clears processOptions; (2)
with option syntax off, every fetched raw argument — whatever its
text, including prefix-leading ones — is emitted as a positional token
whose payload is the full text, with the flag still off; (3) likewise
for a token already pending at its start; (4) the value fetch with
option syntax off accepts any next raw argument verbatim; (5) and (6)
neither reader operation ever turns processOptions back on; (7) with
option syntax off the marker is never emitted again; (8) concretely,
with positional p and flag f, input prog -- -f leaves f at its default
false and gives p the text -f.  Together these show the marker is
consumed once and option syntax stays disabled for the remainder of
the invocation (after the marker the cursor is at a token boundary, so
the mid-cluster branch cannot fire while the flag is off). -/
theorem claim5_marker_permanence :
    (∀ (rest : List String) (cur : List Char) (lf : String),
      next_flag ⟨(String.mk (['-', '-'])) :: rest, cur, cur.length, true, lf⟩ =
        (Ot.marker, "", ⟨rest, ['-', '-'], 2, false, lf⟩)) ∧
    (∀ (a : String) (rest : List String) (cur : List Char) (lf : String),
      next_flag ⟨a :: rest, cur, cur.length, false, lf⟩ =
        (Ot.argument, a, ⟨rest, a.toList, 0, false, ""⟩)) ∧
    (∀ (c : Char) (cs : List Char) (args : List String) (lf : String),
      next_flag ⟨args, c :: cs, 0, false, lf⟩ =
        (Ot.argument, String.mk (c :: cs), ⟨args, c :: cs, 0, false, ""⟩)) ∧
    (∀ (a : String) (rest : List String) (cur : List Char) (lf : String),
      next_argument ⟨a :: rest, cur, cur.length, false, lf⟩ =
        (some a, ⟨rest, a.toList, a.toList.length, false, lf⟩)) ∧
    (∀ r : Reader,
      ((next_flag { r with processOptions := false }).2.2).processOptions = false) ∧
    (∀ r : Reader,
      ((next_argument { r with processOptions := false }).2).processOptions = false) ∧
    (∀ r : Reader,
      ((next_flag { r with processOptions := false }).1 = Ot.marker) = False) ∧
    optValues (c5Parser.runParse (["prog", "--", "-f"])) =
      Except.ok ([Val.b false], [Val.s ("-f")]) := by
  refine ⟨fun rest cur lf => ?_, fun a rest cur lf => ?_, fun c cs args lf => ?_,
    fun a rest cur lf => ?_, fun r => ?_, fun r => ?_, fun r => ?_, rfl⟩
  · simp [next_flag]
  · simp [next_flag, mk_toList]
  · simp [next_flag]
  · simp [next_argument, mk_toList]
  · simp only [next_flag]
    split_ifs <;> rfl
  · simp only [next_argument]
    split_ifs <;> rfl
  · apply eq_false
    simp only [next_flag]
    split_ifs <;> simp_all

/-- C8: the value fetch never swallows an option.  With the cursor at
the end of the current token (no unconsumed characters pending,
i.e. not mid-token): if the raw stream is exhausted the fetch fails
and a single-value option (or positional, which shares the same parse)
reports MissingArgumentError carrying the reader's last flag, the
token that named the option; if instead the next raw argument begins
with the prefix character while option syntax is honored, the fetch
also fails — the option-shaped argument is left as the pending current
token at its start, to be reclassified by the next classifier call,
not consumed as the value — and the option reports the same error.  In
both cases applyOption returns an error, so the parse loops propagate
it without writing the option's value slot. -/
theorem claim8_value_fetch_guard :
    (∀ (cur : List Char) (po : Bool) (lf : String),
      next_argument ⟨[], cur, cur.length, po, lf⟩ =
        (none, ⟨[], cur, cur.length, po, lf⟩)) ∧
    (∀ (conv : String → Except Unit Val) (v : Val) (cur : List Char) (po : Bool)
        (lf : String),
      applyOption ⟨OptKind.singleOption conv, v⟩ ⟨[], cur, cur.length, po, lf⟩ =
        Except.error (ParseError.missingArgument lf)) ∧
    (∀ (cs : List Char) (rest : List String) (cur : List Char) (lf : String),
      next_argument ⟨(String.mk ('-' :: cs)) :: rest, cur, cur.length, true, lf⟩ =
        (none, ⟨rest, '-' :: cs, 0, true, lf⟩)) ∧
    (∀ (conv : String → Except Unit Val) (v : Val) (cs : List Char)
        (rest : List String) (cur : List Char) (lf : String),
      applyOption ⟨OptKind.singleOption conv, v⟩
          ⟨(String.mk ('-' :: cs)) :: rest, cur, cur.length, true, lf⟩ =
        Except.error (ParseError.missingArgument lf)) := by
  have h1 : ∀ (cur : List Char) (po : Bool) (lf : String),
      next_argument ⟨[], cur, cur.length, po, lf⟩ =
        (none, ⟨[], cur, cur.length, po, lf⟩) := by
    intro cur po lf
    simp [next_argument]
  have h2 : ∀ (cs : List Char) (rest : List String) (cur : List Char) (lf : String),
      next_argument ⟨(String.mk ('-' :: cs)) :: rest, cur, cur.length, true, lf⟩ =
        (none, ⟨rest, '-' :: cs, 0, true, lf⟩) := by
    intro cs rest cur lf
    simp [next_argument, mk_toList]
  refine ⟨h1, fun conv v cur po lf => ?_, h2, fun conv v cs rest cur lf => ?_⟩
  · simp [applyOption, h1]
  · simp [applyOption, h2]

/-- C10 amended: an empty raw argument is classified as a positional
token with empty payload; because the cursor of the empty token is at
its start and its end at once, the pending positional's value fetch
does not use it but moves on: it fails with missing-argument if the
empty string was the last element, consumes the following raw argument
verbatim as the value when option syntax is disabled or that argument
does not begin with the prefix character (including a following empty
argument, returned as the empty value), and fails with
missing-argument — leaving the option-shaped argument pending — when
the following argument begins with the prefix character while option
syntax is honored.  The empty token itself is silently dropped, as the
concrete run prog (empty) x shows. -/
theorem claim10_empty_token_dropped :
    (∀ (rest : List String) (cur : List Char) (po : Bool) (lf : String),
      next_flag ⟨(String.mk []) :: rest, cur, cur.length, po, lf⟩ =
        (Ot.argument, "", ⟨rest, [], 0, po, ""⟩)) ∧
    (∀ (po : Bool) (lf : String),
      next_argument ⟨[], [], 0, po, lf⟩ = (none, ⟨[], [], 0, po, lf⟩)) ∧
    (∀ (a : String) (rest : List String) (po : Bool) (lf : String),
      (po = true → (a.toList).headD ' ' ≠ '-') →
      next_argument ⟨a :: rest, [], 0, po, lf⟩ =
        (some a, ⟨rest, a.toList, a.toList.length, po, lf⟩)) ∧
    (∀ (a : String) (rest : List String) (lf : String),
      (a.toList).headD ' ' = '-' →
      next_argument ⟨a :: rest, [], 0, true, lf⟩ =
        (none, ⟨rest, a.toList, 0, true, lf⟩)) ∧
    optValues (c10Parser.runParse (["prog", "", "x"])) =
      Except.ok ([], [Val.s ("x")]) := by
  refine ⟨fun rest cur po lf => ?_, fun po lf => ?_, fun a rest po lf h => ?_,
    fun a rest lf h => ?_, rfl⟩
  · simp [next_flag]
  · simp [next_argument]
  · obtain ⟨l⟩ := a
    cases po with
    | false => simp [next_argument, toList_mk]
    | true =>
      have hh := h rfl
      rw [toList_mk] at hh
      cases l with
      | nil => simp [next_argument, toList_mk]
      | cons c cs =>
        simp only [List.headD_cons] at hh
        simp [next_argument, toList_mk, hh]
  · obtain ⟨l⟩ := a
    rw [toList_mk] at h
    cases l with
    | nil => simp at h
    | cons c cs =>
      simp only [List.headD_cons] at h
      subst h
      simp [next_argument, toList_mk]

/-- Witness for claim10_empty_token_dropped at concrete inputs: the
fetch from the empty-token state consumes a following plain argument
and rejects a following option-shaped one. -/
theorem claim10_empty_token_dropped_witness :
    next_argument ⟨["x"], [], 0, true, ""⟩ = (some ("x"), ⟨[], ['x'], 1, true, ""⟩) ∧
    next_argument ⟨["-f"], [], 0, true, ""⟩ = (none, ⟨[], ['-', 'f'], 0, true, ""⟩) :=
  ⟨claim10_empty_token_dropped.2.2.1 ("x") [] true ("") (fun _ => by decide),
   claim10_empty_token_dropped.2.2.2.1 ("-f") [] ("") (by decide)⟩

/-- Lookup in an association list is preserved by appending entries on
the right: the checked insertions never shadow an existing key. -/
theorem lookupKey_append_isSome {α : Type} [BEq α] (m l : List (α × Nat)) (k : α)
    (h : (lookupKey m k).isSome = true) : (lookupKey (m ++ l) k).isSome = true := by
  induction m with
  | nil => simp [lookupKey, List.find?] at h
  | cons a m ih =>
    rw [List.cons_append]
    unfold lookupKey at *
    cases hpa : a.1 == k with
    | true =>
      have hf : List.find? (fun q => q.1 == k) (a :: (m ++ l)) = some a :=
        List.find?_cons_of_pos _ hpa
      rw [hf]
      rfl
    | false =>
      have hneg : ¬((a.1 == k) = true) := by simp [hpa]
      have hf1 : List.find? (fun q => q.1 == k) (a :: m) =
          List.find? (fun q => q.1 == k) m :=
        List.find?_cons_of_neg _ hneg
      have hf2 : List.find? (fun q => q.1 == k) (a :: (m ++ l)) =
          List.find? (fun q => q.1 == k) (m ++ l) :=
        List.find?_cons_of_neg _ hneg
      rw [hf1] at h
      rw [hf2]
      exact ih h

/-- If any name in the declaration list already has an entry in the
map, the one-at-a-time insertion loop of register_option stops with an
error. -/
theorem insertKeys_collision {α : Type} [BEq α] (mkErr : α → RegErr) (idx : Nat)
    (ks : List α) (m : List (α × Nat)) (k : α) (hk : k ∈ ks)
    (h : (lookupKey m k).isSome = true) :
    ((insertKeys mkErr idx ks m).2).isSome = true := by
  induction ks generalizing m with
  | nil => cases hk
  | cons a ks ih =>
    unfold insertKeys
    by_cases ha : (lookupKey m a).isSome = true
    · rw [if_pos ha]
      rfl
    · rw [if_neg ha]
      rcases List.mem_cons.mp hk with rfl | hmem
      · exact absurd h ha
      · exact ih (m ++ [(a, idx)]) hmem (lookupKey_append_isSome m [(a, idx)] k h)

/-- register_option always leaves the owning option list extended by
the new option, on success and on error alike (the emplace_back at
cpparse.cxx line 475 happens before any name check). -/
theorem registerOpt_options (p : Parser) (o : OptObj) (ss : List Char)
    (ls : List String) : ((registerOpt p o ss ls).1).options = p.options ++ [o] := by
  unfold registerOpt
  rcases hs : insertKeys RegErr.dupShort p.options.length ss p.short_options with ⟨sm, e1⟩
  cases e1 with
  | some e => simp [hs]
  | none =>
    rcases hl : insertKeys RegErr.dupLong p.options.length ls p.long_options with ⟨lm, e2⟩
    simp [hs, hl]

/-- C2 amended: for every parser state and every declaration whose
short or long name set collides with an already-registered name, the
registration fails with a DuplicateNameError — but the Registry is
observably mutated rather than unchanged: the colliding option object
has already been appended to the owning option list (and any names of
the declaration processed before the collision stay registered), so
the declaration is not atomic. -/
theorem claim2_duplicate_name_detected (p : Parser) (o : OptObj) (ss : List Char)
    (ls : List String)
    (h : (∃ c ∈ ss, (lookupKey p.short_options c).isSome = true) ∨
      (∃ t ∈ ls, (lookupKey p.long_options t).isSome = true)) :
    ((registerOpt p o ss ls).2).isSome = true ∧
    ((registerOpt p o ss ls).1).options = p.options ++ [o] := by
  refine ⟨?_, registerOpt_options p o ss ls⟩
  unfold registerOpt
  rcases hs : insertKeys RegErr.dupShort p.options.length ss p.short_options with ⟨sm, e1⟩
  cases e1 with
  | some e => simp [hs]
  | none =>
    rcases hl : insertKeys RegErr.dupLong p.options.length ls p.long_options with ⟨lm, e2⟩
    rcases h with ⟨c, hc, hlook⟩ | ⟨t, ht, hlook⟩
    · have := insertKeys_collision RegErr.dupShort p.options.length ss
        p.short_options c hc hlook
      rw [hs] at this
      simp at this
    · have := insertKeys_collision RegErr.dupLong p.options.length ls
        p.long_options t ht hlook
      rw [hl] at this
      simp [hs, hl, this]

/-- Concrete parser state for the claim2_duplicate_name_detected
witness: one flag already owning the short name a. -/
def c2WitnessParser : Parser :=
  ⟨[⟨OptKind.flag (Val.b true), Val.b false⟩], [], [('a', 0)], []⟩

/-- Witness for claim2_duplicate_name_detected: declaring the short
name a against a registry that already maps a fails, with the owning
list nevertheless extended. -/
theorem claim2_duplicate_name_detected_witness :
    ((registerOpt c2WitnessParser ⟨OptKind.flag (Val.b false), Val.b false⟩ ['a'] []).2).isSome
        = true ∧
    ((registerOpt c2WitnessParser ⟨OptKind.flag (Val.b false), Val.b false⟩ ['a'] []).1).options
        = c2WitnessParser.options ++ [⟨OptKind.flag (Val.b false), Val.b false⟩] :=
  claim2_duplicate_name_detected c2WitnessParser ⟨OptKind.flag (Val.b false), Val.b false⟩
    ['a'] [] (Or.inl ⟨'a', by decide, by decide⟩)

/-- Facts about the ten digit characters: each is a digit, converts
back to its value, and is neither whitespace nor a sign character. -/
theorem digitChar_spec (d : Nat) (h : d < 10) :
    (Nat.digitChar d).isDigit = true ∧ charToDigit (Nat.digitChar d) = d ∧
    isSpaceChar (Nat.digitChar d) = false ∧ Nat.digitChar d ≠ '-' ∧
    Nat.digitChar d ≠ '+' := by
  interval_cases d <;> exact (by decide)

/-- The digit-run scanner consumes a rendered digit list completely
and folds up exactly the most-significant-first value. -/
theorem parseDigits_map (l : List Nat) (h : ∀ d ∈ l, d < 10) (acc : Nat) :
    parseDigits acc (l.map Nat.digitChar) =
      (l.foldl (fun a d => a * 10 + d) acc, []) := by
  induction l generalizing acc with
  | nil => simp [parseDigits]
  | cons d l ih =>
    have hd := digitChar_spec d (h d (List.mem_cons_self d l))
    rw [List.map_cons]
    simp only [parseDigits]
    rw [if_pos hd.1, hd.2.1, List.foldl_cons]
    exact ih (fun x hx => h x (List.mem_cons_of_mem d hx)) (acc * 10 + d)

/-- Folding digits most-significant-first is the little-endian digit
value of Mathlib. -/
theorem foldr_eq_ofDigits (l : List Nat) :
    l.foldr (fun d a => a * 10 + d) 0 = Nat.ofDigits 10 l := by
  induction l with
  | nil => simp [Nat.ofDigits_nil]
  | cons d l ih =>
    rw [List.foldr_cons, ih, Nat.ofDigits_cons]
    ring

/-- Folding the reversed digit list of n most-significant-first
recovers n. -/
theorem foldl_digits_reverse (n : Nat) :
    ((Nat.digits 10 n).reverse).foldl (fun a d => a * 10 + d) 0 = n := by
  rw [List.foldl_reverse]
  have h := foldr_eq_ofDigits (Nat.digits 10 n)
  rw [h]
  exact Nat.ofDigits_digits 10 n

/-- Scanning the decimal rendering of n yields n with nothing left
over. -/
theorem parseDigits_renderNat (n : Nat) : parseDigits 0 (renderNat n) = (n, []) := by
  by_cases h : n = 0
  · subst h
    decide
  · rw [renderNat, if_neg h, digitsChars]
    rw [parseDigits_map _
      (fun d hd => Nat.digits_lt_base (by norm_num) (List.mem_reverse.mp hd)) 0]
    rw [foldl_digits_reverse]

/-- The digit-run scanner stops exactly at the first non-digit
character: scanning a rendered digit list followed by a remainder that
opens with a non-digit consumes the digits and leaves the remainder
untouched. -/
theorem parseDigits_map_append (l : List Nat) (h : ∀ d ∈ l, d < 10) (c : Char)
    (hc : c.isDigit = false) (rest : List Char) (acc : Nat) :
    parseDigits acc (l.map Nat.digitChar ++ c :: rest) =
      (l.foldl (fun a d => a * 10 + d) acc, c :: rest) := by
  induction l generalizing acc with
  | nil =>
    rw [List.map_nil, List.nil_append, List.foldl_nil]
    simp only [parseDigits]
    rw [if_neg (by simp [hc])]
  | cons d l ih =>
    have hd := digitChar_spec d (h d (List.mem_cons_self d l))
    rw [List.map_cons, List.cons_append]
    simp only [parseDigits]
    rw [if_pos hd.1, hd.2.1, List.foldl_cons]
    exact ih (fun x hx => h x (List.mem_cons_of_mem d hx)) (acc * 10 + d)

/-- The decimal rendering of a natural number is a list of digit
characters. -/
theorem renderNat_eq_map (n : Nat) :
    ∃ l : List Nat, renderNat n = l.map Nat.digitChar ∧ (∀ d ∈ l, d < 10) := by
  by_cases h : n = 0
  · subst h
    exact ⟨[0], by decide, by decide⟩
  · exact ⟨(Nat.digits 10 n).reverse, by rw [renderNat, if_neg h, digitsChars],
      fun d hd => Nat.digits_lt_base (by norm_num) (List.mem_reverse.mp hd)⟩

/-- The decimal rendering of a natural number starts with a digit
character (which is therefore neither whitespace nor a sign). -/
theorem renderNat_shape (n : Nat) :
    ∃ c cs, renderNat n = c :: cs ∧ c.isDigit = true ∧ isSpaceChar c = false ∧
      c ≠ '-' ∧ c ≠ '+' := by
  by_cases h : n = 0
  · subst h
    exact ⟨'0', [], rfl, by decide, by decide, by decide, by decide⟩
  · have hne : Nat.digits 10 n ≠ [] := Nat.digits_ne_nil_iff_ne_zero.mpr h
    rw [renderNat, if_neg h, digitsChars]
    rcases hrev : (Nat.digits 10 n).reverse with _ | ⟨d, ds⟩
    · exact absurd (by simpa using hrev) hne
    · have hd : d ∈ Nat.digits 10 n :=
        List.mem_reverse.mp (by rw [hrev]; exact List.mem_cons_self d ds)
      have hs := digitChar_spec d (Nat.digits_lt_base (by norm_num) hd)
      exact ⟨Nat.digitChar d, ds.map Nat.digitChar, by rw [List.map_cons],
        hs.1, hs.2.2.1, hs.2.2.2.1, hs.2.2.2.2⟩

/-- The digits of a rendered integer reach exactly to any appended
junk that opens with a non-digit character, so the converter's
whole-token check rejects the token: for every integer i and every
trailing remainder beginning with a non-digit, the conversion fails. -/
theorem readInt_trailing_junk (i : Int) (c : Char) (rest : List Char)
    (hc : c.isDigit = false) :
    readInt (String.mk ((renderInt i).toList ++ c :: rest)) = Except.error () := by
  cases i with
  | ofNat n =>
    obtain ⟨l, hl, hlt⟩ := renderNat_eq_map n
    obtain ⟨c0, cs, hr, hdig, hsp, hm, hp⟩ := renderNat_shape n
    rw [renderInt, toList_mk, hr, List.cons_append]
    simp only [readInt, toList_mk, List.dropWhile_cons, hsp, if_false,
      Bool.false_eq_true]
    rw [if_neg hm, if_neg hp]
    simp only [readIntAfterSign]
    rw [if_pos hdig]
    rw [← List.cons_append, ← hr, hl]
    rw [parseDigits_map_append l hlt c hc rest 0]
    rfl
  | negSucc n =>
    obtain ⟨l, hl, hlt⟩ := renderNat_eq_map (n + 1)
    obtain ⟨c0, cs, hr, hdig, hsp, hm, hp⟩ := renderNat_shape (n + 1)
    rw [renderInt, toList_mk, List.cons_append]
    have hds : isSpaceChar '-' = false := rfl
    simp only [readInt, toList_mk, List.dropWhile_cons, hds, if_false,
      Bool.false_eq_true]
    rw [if_pos trivial]
    rw [hr, List.cons_append]
    simp only [readIntAfterSign]
    rw [if_pos hdig]
    rw [← List.cons_append, ← hr, hl]
    rw [parseDigits_map_append l hlt c hc rest 0]
    rfl

/-- C6: integer conversion round-trip and whole-token consumption.
For every integer i the default integer converter applied to the
decimal rendering of i (renderInt, the std::to_string spelling)
returns i; and every token consisting of a rendered number followed by
trailing characters that open with a non-numeric character — 5x being
the named instance — fails with a ConversionError instead of being
truncated, because the eof/tellg check at cpparse.cxx line 849 demands
that the digits reach the end of the token. -/
theorem claim6_int_roundtrip :
    (∀ i : Int, readInt (renderInt i) = Except.ok i) ∧
    (∀ (i : Int) (c : Char) (rest : List Char), c.isDigit = false →
      readInt (String.mk ((renderInt i).toList ++ c :: rest)) = Except.error ()) ∧
    readInt ("5x") = Except.error () := by
  refine ⟨fun i => ?_, fun i c rest hc => readInt_trailing_junk i c rest hc, rfl⟩
  cases i with
  | ofNat n =>
    obtain ⟨c, cs, hr, hdig, hsp, hm, hp⟩ := renderNat_shape n
    rw [renderInt]
    simp only [readInt, toList_mk, hr, List.dropWhile_cons, hsp, if_false,
      Bool.false_eq_true]
    rw [if_neg hm, if_neg hp]
    simp only [readIntAfterSign]
    rw [if_pos hdig]
    have hpd : parseDigits 0 (c :: cs) = (n, []) := by
      rw [← hr]
      exact parseDigits_renderNat n
    rw [hpd]
    rfl
  | negSucc n =>
    obtain ⟨c, cs, hr, hdig, hsp, hm, hp⟩ := renderNat_shape (n + 1)
    rw [renderInt]
    have hds : isSpaceChar '-' = false := rfl
    simp only [readInt, toList_mk, List.dropWhile_cons, hds, if_false,
      Bool.false_eq_true]
    rw [if_pos trivial]
    rw [hr]
    simp only [readIntAfterSign]
    rw [if_pos hdig]
    have hpd : parseDigits 0 (c :: cs) = (n + 1, []) := by
      rw [← hr]
      exact parseDigits_renderNat (n + 1)
    rw [hpd]
    simp [Int.negSucc_eq]

/-- Witness for claim6_int_roundtrip at a concrete input: the rendered
number 5 followed by the non-digit x is rejected. -/
theorem claim6_int_roundtrip_witness :
    readInt (String.mk ((renderInt 5).toList ++ 'x' :: [])) = Except.error () :=
  claim6_int_roundtrip.2.1 5 'x' [] (by decide)

end Cpparse
